import Mathlib

/-!
# Verification of `serve.py` (RavensOne development HTTP server)

`serve.py` subclasses Python's `http.server.SimpleHTTPRequestHandler`,
overriding `end_headers` (to inject a `Content-Type: application/wasm`
header for raw request paths ending in `.wasm` and a permissive CORS
header) and `log_message` (emoji-prefixed logging), and runs a
`socketserver.TCPServer` on port 8000 from `__main__`.

This file shallowly embeds the request-handling pipeline of
`SimpleHTTPRequestHandler` (CPython's `http/server.py`) together with the
two overrides, and the process-level control flow of `__main__`.
Conventions of the embedding:

* Strings are manipulated as `List Char` (Python `str` code points);
  percent-decoding is modelled byte-wise at the code-point level.
* The filesystem is an association list from absolute paths (component
  lists) to entries; the served root is a component list.  `os.listdir`
  order is the entry order of the association list.
* The `Server:`/`Date:`/`Last-Modified:` header values are environment
  inputs (`Env`, file mtime strings), since clock and version are not
  modelled.
* `If-Modified-Since`/`If-Range` conditional handling, permission errors
  and symlink decoration in directory listings are outside the model
  (the repository's requests carry none of these).
* `mime_types_map` is the slice of CPython's `mimetypes` default table
  relevant to extensions appearing in this development; unknown
  extensions fall back to `application/octet-stream` as in
  `SimpleHTTPRequestHandler.guess_type`.
-/

/-! ## Python string primitives -/

/-- Python `str.lower` (ASCII range; all strings compared here are
ASCII). -/
def pyLower (s : String) : String :=
  ⟨s.data.map Char.toLower⟩

/-- `s.split(c, 1)[0]`: the part of `s` before the first occurrence of `c`
(all of `s` when `c` is absent). -/
def truncAt (c : Char) (s : List Char) : List Char :=
  s.takeWhile (fun x => x != c)

/-- The part of `s` after the first occurrence of `c` (empty when absent). -/
def afterFirst (c : Char) (s : List Char) : List Char :=
  (s.dropWhile (fun x => x != c)).tail

/-- Python `str.rstrip()`: drop trailing whitespace. -/
def pyRstrip (s : List Char) : List Char :=
  (s.reverse.dropWhile Char.isWhitespace).reverse

/-- Python `s.endswith(suffix)`. -/
def pyEndsWith (s suffix : List Char) : Bool :=
  suffix.isSuffixOf s

/-- Python `str.split(sep)` for a one-character separator:
always returns at least one (possibly empty) group. -/
def splitOnChar (sep : Char) : List Char → List (List Char)
  | [] => [[]]
  | c :: rest =>
    match splitOnChar sep rest with
    | [] => [[c]]
    | g :: gs => if c = sep then [] :: g :: gs else (c :: g) :: gs

/-- Value of a hexadecimal digit, as accepted by `urllib.parse.unquote`. -/
def hexVal (c : Char) : Option Nat :=
  if '0' ≤ c ∧ c ≤ '9' then some (c.toNat - '0'.toNat)
  else if 'a' ≤ c ∧ c ≤ 'f' then some (c.toNat - 'a'.toNat + 10)
  else if 'A' ≤ c ∧ c ≤ 'F' then some (c.toNat - 'A'.toNat + 10)
  else none

/-- `urllib.parse.unquote`, modelled byte-wise at the code-point level:
`%XX` with two hex digits decodes to the corresponding character;
invalid escapes are left verbatim (as in CPython). -/
def unquote : List Char → List Char
  | [] => []
  | '%' :: a :: b :: rest =>
    match hexVal a, hexVal b with
    | some x, some y => Char.ofNat (16 * x + y) :: unquote rest
    | _, _ => '%' :: unquote (a :: b :: rest)
  | c :: rest => c :: unquote rest

/-! ## `posixpath` primitives -/

/-- The component list of `posixpath.normpath` (CPython's `new_comps`
loop); joining with `/` and re-splitting, dropping empties, yields
exactly this list. -/
def normpathComps (s : List Char) : List (List Char) :=
  let initialSlash : Bool := match s with | '/' :: _ => true | _ => false
  let step := fun (acc : List (List Char)) (comp : List Char) =>
    if comp = [] ∨ comp = ['.'] then acc
    else if comp ≠ ['.', '.'] ∨ (¬ initialSlash = true ∧ acc = []) ∨
        acc.head? = some ['.', '.'] then comp :: acc
    else acc.tail
  ((splitOnChar '/' s).foldl step []).reverse

/-- `posixpath.splitext` restricted to a single path component
(no `/` inside): split off the extension at the last dot, unless every
character before that dot is itself a dot (leading dots do not begin an
extension, so `.wasm` has no extension). -/
def splitextFilename (name : List Char) : List Char × List Char :=
  match name.reverse.findIdx? (fun c => c = '.') with
  | none => (name, [])
  | some i =>
    let dotIndex := name.length - 1 - i
    if (name.take dotIndex).all (fun c => c = '.') then (name, [])
    else (name.take dotIndex, name.drop dotIndex)

/-! ## Request-path resolution (`SimpleHTTPRequestHandler.translate_path`) -/

/-- The request target truncated at the first `?` and then the first `#`
(`path.split('?',1)[0].split('#',1)[0]`); equals `urlsplit(path).path`
for origin-form targets. -/
def pathPart (p : List Char) : List Char :=
  truncAt '#' (truncAt '?' p)

/-- `translate_path`'s trailing-slash flag:
`path.rstrip().endswith('/')`, computed before unquoting. -/
def hasTrailingSlash (p : String) : Bool :=
  pyEndsWith (pyRstrip (pathPart p.data)) ['/']

/-- The root-relative component words produced by `translate_path`:
drop query and fragment, percent-decode, normalize, then keep only
simple components (no `/` inside, not `.` nor `..`). -/
def translate_path_words (p : List Char) : List String :=
  ((normpathComps (unquote (pathPart p))).filter
      (fun w => !(w.contains '/') && w != ['.'] && w != ['.', '.'])).map
    (fun w => ⟨w⟩)

/-- The absolute filesystem path `translate_path` resolves a request
target to: the served root followed by the request's component words. -/
def resolveKey (root : List String) (p : String) : List String :=
  root ++ translate_path_words p.data

/-- The filename `guess_type` sees: the last component of the resolved
path (the root directory's own name when the request has no words). -/
def lastComponent (ks : List String) : String :=
  ks.getLast?.getD ""

/-! ## Content-type inference (`SimpleHTTPRequestHandler.guess_type`) -/

/-- `SimpleHTTPRequestHandler.extensions_map` (the encodings table
consulted case-sensitively first, then lowercased). -/
def extensions_map : List (String × String) :=
  [(".gz", "application/gzip"), (".Z", "application/octet-stream"),
   (".bz2", "application/x-bzip2"), (".xz", "application/x-xz")]

/-- The slice of CPython's `mimetypes.types_map` defaults relevant here;
keys are lowercase as in `mimetypes`.  `.wasm` maps to
`application/wasm` (present since Python 3.8). -/
def mime_types_map : List (String × String) :=
  [(".wasm", "application/wasm"), (".html", "text/html"),
   (".htm", "text/html"), (".css", "text/css"),
   (".js", "text/javascript"), (".mjs", "text/javascript"),
   (".json", "application/json"), (".png", "image/png"),
   (".jpg", "image/jpeg"), (".jpeg", "image/jpeg"),
   (".gif", "image/gif"), (".svg", "image/svg+xml"),
   (".txt", "text/plain"), (".pdf", "application/pdf"),
   (".ico", "image/vnd.microsoft.icon")]

/-- First-match association-list lookup for the extension tables. -/
def lookupStr (m : List (String × String)) (k : String) : Option String :=
  match m with
  | [] => none
  | e :: rest => if e.fst = k then some e.snd else lookupStr rest k

/-- `SimpleHTTPRequestHandler.guess_type` applied to the filename of the
resolved path: the encodings table (exact, then lowercased extension),
then the `mimetypes` table on the lowercased extension, then
`application/octet-stream`. -/
def guess_type (filename : String) : String :=
  let ext : String := ⟨(splitextFilename filename.data).snd⟩
  match lookupStr extensions_map ext with
  | some t => t
  | none =>
    match lookupStr extensions_map (pyLower ext) with
    | some t => t
    | none =>
      match lookupStr mime_types_map (pyLower ext) with
      | some t => t
      | none => "application/octet-stream"

/-! ## Filesystem model -/

/-- A filesystem entry: a regular file (byte content plus an mtime
string used verbatim as the `Last-Modified` header value) or a
directory. -/
inductive FsEntry where
  | file (content : List Nat) (mtime : String)
  | dir
deriving DecidableEq

/-- The filesystem: an association list from absolute paths (component
lists) to entries; lookups take the first match. -/
def Fs := List (List String × FsEntry)

/-- `os.path` existence/type query: the first entry at the given
absolute path. -/
def lookupFs (fs : Fs) (k : List String) : Option FsEntry :=
  match fs with
  | [] => none
  | e :: rest => if e.fst = k then some e.snd else lookupFs rest k

/-- The portion of the filesystem lying under (or at) `root`. -/
def restrictFs (root : List String) (fs : Fs) : Fs :=
  fs.filter (fun e => root.isPrefixOf e.fst)

/-- If `k` names a direct child of the directory `dk`, its name. -/
def childNameAt (dk : List String) (k : List String) : Option String :=
  if k.length = dk.length + 1 ∧ dk <+: k then k.getLast? else none

/-- Deduplicate, keeping the first occurrence (each directory entry is
listed once by `os.listdir`). -/
def eraseDupsKeepFirst : List String → List String
  | [] => []
  | x :: xs => x :: eraseDupsKeepFirst (xs.filter (fun y => y ≠ x))
termination_by l => l.length
decreasing_by
  simp only [List.length_cons]
  exact Nat.lt_succ_of_le (List.length_filter_le _ _)

/-- Code-point lexicographic comparison of character lists
(Python `str` `<=`). -/
def charsLe (xs ys : List Char) : Bool :=
  match xs, ys with
  | [], _ => true
  | _ :: _, [] => false
  | x :: xt, y :: yt => if x = y then charsLe xt yt else decide (x < y)

/-- The sort key of `list_directory`: case-insensitive comparison
(`key=lambda a: a.lower()`). -/
def lowerLe (a b : String) : Bool :=
  charsLe (a.data.map Char.toLower) (b.data.map Char.toLower)

/-- Stable insertion into an already-sorted list (after all equal keys,
as Python's stable sort mandates). -/
def stableInsert (le : String → String → Bool) (x : String) :
    List String → List String
  | [] => [x]
  | y :: ys => if le y x then y :: stableInsert le x ys else x :: y :: ys

/-- Stable sort by the case-insensitive key, as in
`list.sort(key=lambda a: a.lower())`. -/
def sortByLower (l : List String) : List String :=
  l.foldl (fun acc x => stableInsert lowerLe x acc) []

/-- The directory entries `list_directory` iterates over: the direct
children of `dk`, sorted case-insensitively, each paired with whether it
is a directory (which appends the `/` marker). -/
def childEntries (fs : Fs) (dk : List String) : List (String × Bool) :=
  let names :=
    sortByLower (eraseDupsKeepFirst
      ((fs.map Prod.fst).filterMap (childNameAt dk)))
  names.map (fun n =>
    (n, match lookupFs fs (dk ++ [n]) with
        | some FsEntry.dir => true
        | _ => false))

/-! ## HTML/URL rendering helpers used by the library responses -/

/-- `html.escape(s, quote=False)`: escape `&`, `<`, `>`. -/
def htmlEscape (s : String) : String :=
  ⟨s.data.foldr (fun c acc =>
    if c = '&' then '&' :: 'a' :: 'm' :: 'p' :: ';' :: acc
    else if c = '<' then '&' :: 'l' :: 't' :: ';' :: acc
    else if c = '>' then '&' :: 'g' :: 't' :: ';' :: acc
    else c :: acc) []⟩

/-- UTF-8 encoding of a single character, as byte values. -/
def utf8BytesOfChar (c : Char) : List Nat :=
  let n := c.toNat
  if n < 128 then [n]
  else if n < 2048 then [192 + n / 64, 128 + n % 64]
  else if n < 65536 then [224 + n / 4096, 128 + (n / 64) % 64, 128 + n % 64]
  else [240 + n / 262144, 128 + (n / 4096) % 64, 128 + (n / 64) % 64,
        128 + n % 64]

/-- Uppercase hexadecimal digit. -/
def hexDigit (n : Nat) : Char :=
  if n < 10 then Char.ofNat ('0'.toNat + n) else Char.ofNat ('A'.toNat + n - 10)

/-- Characters `urllib.parse.quote` leaves unescaped with the default
`safe='/'`. -/
def isUrlSafe (c : Char) : Bool :=
  c.isAlphanum || c == '_' || c == '.' || c == '-' || c == '~' || c == '/'

/-- `urllib.parse.quote(s)` (default `safe='/'`): percent-encode the
UTF-8 bytes of every unsafe character. -/
def urlQuote (s : String) : String :=
  ⟨s.data.foldr (fun c acc =>
    if isUrlSafe c then c :: acc
    else (utf8BytesOfChar c).foldr
      (fun b acc2 => '%' :: hexDigit (b / 16) :: hexDigit (b % 16) :: acc2)
      acc) []⟩

/-! ## Response construction -/

/-- Per-request environment inputs: the `Server:` and `Date:` header
values emitted by `send_response`, the client address string, and the
HTTP request line (used only in log output). -/
structure Env where
  server : String
  date : String
  addr : String
  requestline : String
deriving DecidableEq

/-- A response body: file bytes, a generated HTML page, or none
(redirects). -/
inductive Body where
  | bytes (bs : List Nat)
  | page (s : String)
  | empty
deriving DecidableEq

/-- The response as sent: status code, header lines in emission order,
body. -/
structure HttpResponse where
  status : Nat
  headers : List (String × String)
  body : Body
deriving DecidableEq

/-- The state of a response just before `end_headers` runs: status,
the header lines already buffered by `send_response`/`send_header`,
the body about to be written, and the raw messages passed to
`log_message` (in emission order). -/
structure CoreResp where
  status : Nat
  buffered : List (String × String)
  body : Body
  logs : List String
deriving DecidableEq

/-- `BaseHTTPRequestHandler.error_message_format` rendered for an error
response (`html.escape`d message and explanation). -/
def error_message_format (code : Nat) (message explain : String) : String :=
  "<!DOCTYPE HTML>\n<html lang=\"en\">\n    <head>\n        <meta charset=\"utf-8\">\n        <title>Error response</title>\n    </head>\n    <body>\n        <h1>Error response</h1>\n        <p>Error code: "
    ++ toString code
    ++ "</p>\n        <p>Message: " ++ htmlEscape message
    ++ ".</p>\n        <p>Explanation: " ++ toString code ++ " - "
    ++ htmlEscape explain
    ++ ".</p>\n    </body>\n</html>\n"

/-- The `send_error(404, "File not found")` response state produced by
`send_head` for unresolvable paths: `send_response(404)` buffers the
status, `Server:` and `Date:` lines and logs the request line (after
`log_error` has already logged the diagnostic), then `Connection:`,
`Content-Type:` and `Content-Length:` are buffered. -/
def err404Resp (env : Env) : CoreResp :=
  let body := error_message_format 404 "File not found"
    "Nothing matches the given URI"
  { status := 404
    buffered := [("Server", env.server), ("Date", env.date),
                 ("Connection", "close"),
                 ("Content-Type", "text/html;charset=utf-8"),
                 ("Content-Length", toString body.utf8ByteSize)]
    body := Body.page body
    logs := ["code 404, message File not found",
             "\"" ++ env.requestline ++ "\" 404 -"] }

/-- The 200 response state for an existing regular file:
`send_response(200)` (logging once), then the inferred `Content-type:`,
`Content-Length:` and `Last-Modified:` header lines. -/
def fileResp (env : Env) (filename : String) (content : List Nat)
    (mtime : String) : CoreResp :=
  { status := 200
    buffered := [("Server", env.server), ("Date", env.date),
                 ("Content-type", guess_type filename),
                 ("Content-Length", toString content.length),
                 ("Last-Modified", mtime)]
    body := Body.bytes content
    logs := ["\"" ++ env.requestline ++ "\" 200 -"] }

/-- The `Location` value of the directory redirect: the path with a `/`
appended, re-joined with the request's nonempty query and fragment as
`urlunsplit` does. -/
def redirectLocation (p : String) : String :=
  let pre := truncAt '#' p.data
  let frag := afterFirst '#' p.data
  let q := afterFirst '?' pre
  (⟨truncAt '?' pre⟩ : String) ++ "/"
    ++ (if q = [] then "" else "?" ++ (⟨q⟩ : String))
    ++ (if frag = [] then "" else "#" ++ (⟨frag⟩ : String))

/-- The 301 response state for a directory path lacking its trailing
slash. -/
def redirectResp (env : Env) (p : String) : CoreResp :=
  { status := 301
    buffered := [("Server", env.server), ("Date", env.date),
                 ("Location", redirectLocation p),
                 ("Content-Length", "0")]
    body := Body.empty
    logs := ["\"" ++ env.requestline ++ "\" 301 -"] }

/-- The HTML body of `list_directory`: title from the unquoted raw
request target, one `<li>` per child entry (directories get a `/`
marker, names are URL-quoted in the link and HTML-escaped in the
text). -/
def list_directory_body (children : List (String × Bool)) (rawPath : String) :
    String :=
  let displaypath := htmlEscape ⟨unquote rawPath.data⟩
  let title := "Directory listing for " ++ displaypath
  let items := children.map (fun c =>
    let marked := if c.snd then c.fst ++ "/" else c.fst
    "<li><a href=\"" ++ urlQuote marked ++ "\">" ++ htmlEscape marked
      ++ "</a></li>")
  String.intercalate "\n"
    (["<!DOCTYPE HTML>", "<html lang=\"en\">", "<head>",
      "<meta charset=\"utf-8\">",
      "<title>" ++ title ++ "</title>\n</head>",
      "<body>\n<h1>" ++ title ++ "</h1>",
      "<hr>\n<ul>"] ++ items ++ ["</ul>\n<hr>\n</body>\n</html>\n"])

/-- The 200 directory-listing response state. -/
def listingResp (env : Env) (children : List (String × Bool)) (p : String) :
    CoreResp :=
  let body := list_directory_body children p
  { status := 200
    buffered := [("Server", env.server), ("Date", env.date),
                 ("Content-type", "text/html; charset=utf-8"),
                 ("Content-Length", toString body.utf8ByteSize)]
    body := Body.page body
    logs := ["\"" ++ env.requestline ++ "\" 200 -"] }

/-- `SimpleHTTPRequestHandler.send_head` (plus the body copy of
`do_GET`), with `self.path = p`: resolve the path; directories redirect
when the displayed path lacks a trailing slash, else serve
`index.html`/`index.htm` or a listing; otherwise reject trailing-slash
paths, serve the file if it opens, else 404. -/
def send_head_core (env : Env) (fs : Fs) (root : List String) (p : String) :
    CoreResp :=
  match lookupFs fs (resolveKey root p) with
  | some FsEntry.dir =>
    if pyEndsWith (pathPart p.data) ['/'] then
      match lookupFs fs (resolveKey root p ++ ["index.html"]) with
      | some (FsEntry.file c m) => fileResp env "index.html" c m
      | _ =>
        match lookupFs fs (resolveKey root p ++ ["index.htm"]) with
        | some (FsEntry.file c m) => fileResp env "index.htm" c m
        | _ => listingResp env (childEntries fs (resolveKey root p)) p
    else redirectResp env p
  | some (FsEntry.file c m) =>
    if hasTrailingSlash p then err404Resp env
    else fileResp env (lastComponent (resolveKey root p)) c m
  | none => err404Resp env

/-- `WasmHandler.end_headers`, the override under verification: the
header lines it appends after everything already buffered — the WASM
content type when the raw request path ends in `.wasm`, then the CORS
header — before `super().end_headers()` terminates the block. -/
def end_headers_extra (p : String) : List (String × String) :=
  (if pyEndsWith p.data ".wasm".data then
    [("Content-Type", "application/wasm")]
  else []) ++ [("Access-Control-Allow-Origin", "*")]

/-- The response as emitted on the wire: the buffered header lines
followed by the lines `WasmHandler.end_headers` appends. -/
def assembleResponse (core : CoreResp) (p : String) : HttpResponse :=
  { status := core.status
    headers := core.buffered ++ end_headers_extra p
    body := core.body }

/-- `WasmHandler.log_message`'s output line for one `format % args`
message: the fixed emoji marker, the client address string, a literal
separator, and the message. -/
def log_line (addr msg : String) : String :=
  "🌐 " ++ addr ++ " - " ++ msg

/-- One full GET exchange (with stdout writable): the response sent and
the log lines printed. -/
def handleGET (env : Env) (fs : Fs) (root : List String) (p : String) :
    HttpResponse × List String :=
  (assembleResponse (send_head_core env fs root p) p,
   (send_head_core env fs root p).logs.map (log_line env.addr))

/-- All values of header lines named `Content-Type` (compared
case-insensitively, as HTTP header names are), in emission order. -/
def contentTypeValues (hs : List (String × String)) : List String :=
  (hs.filter (fun h => pyLower h.fst == "content-type")).map Prod.snd

/-! ## Logging execution and connection dispatch -/

/-- `WasmHandler.log_message` as executed: `print` writes the formatted
line to stdout, or raises when stdout is unwritable; the method installs
no exception handler, so a raise propagates to the caller. -/
def WasmHandler.log_message (stdoutOk : Bool) (addr msg : String) :
    Except String String :=
  if stdoutOk then Except.ok (log_line addr msg)
  else Except.error "print raised: I/O error on stdout"

/-- What one accepted connection yields at the `socketserver` dispatch
layer: a completed exchange (response sent, lines printed), or an
exception that escaped the handler and was swallowed by
`BaseServer.handle_error`. -/
inductive ReqOutcome where
  | completed (resp : HttpResponse) (printed : List String)
  | handledError (e : String)
deriving DecidableEq

/-- One connection processed by the server: the handler runs `send_head`
and emits its log lines through `WasmHandler.log_message` (each of which
may raise); headers are flushed only after logging, so a raise aborts
the exchange before any response is sent, and `serve_forever`'s dispatch
catches the exception (`handle_error`) and keeps the server alive. -/
def processOneConnection (stdoutOk : Bool) (env : Env) (fs : Fs)
    (root : List String) (p : String) : ReqOutcome :=
  match (send_head_core env fs root p).logs.mapM
      (WasmHandler.log_message stdoutOk env.addr) with
  | Except.error e => ReqOutcome.handledError e
  | Except.ok printed =>
    ReqOutcome.completed (assembleResponse (send_head_core env fs root p) p)
      printed

/-- `serve_forever` over a finite trace of incoming requests: each
connection is dispatched independently; a handler exception never stops
the loop. -/
def serve_forever_loop (stdoutOk : Bool) (fs : Fs) (root : List String) :
    List (Env × String) → List ReqOutcome
  | [] => []
  | r :: rest =>
    processOneConnection stdoutOk r.fst fs root r.snd
      :: serve_forever_loop stdoutOk fs root rest

/-! ## Process-level model of `__main__` -/

/-- The fixed port `serve.py` hardcodes. -/
def PORT : Nat := 8000

/-- Environment of one process run: what the OS answers when a given
port is bound (`TCPServer.__init__`), and whether a `KeyboardInterrupt`
is delivered while `serve_forever` runs. -/
structure MainEnv where
  bindOutcome : Nat → Except String Unit
  interruptDuringServe : Bool

/-- Observable result of a finished process. -/
structure ProcResult where
  exitCode : Nat
  boundPorts : List Nat
  socketReleased : Bool
  output : List String
deriving DecidableEq

/-- A run of `__main__` either exits or serves forever. -/
inductive MainOutcome where
  | exited (r : ProcResult)
  | servingForever
deriving DecidableEq

/-- The startup banner (an f-string naming the port three times; the
decorative box padding is reproduced as line content without trailing
alignment spaces). -/
def bannerText : String :=
  let bar : String := ⟨List.replicate 60 '═'⟩
  "\n╔" ++ bar ++ "╗\n║\n║   🔥 RavensOne Development Server\n║\n║   Running at: http://localhost:" ++ toString PORT
    ++ "\n║\n║   Test pages:\n║   • http://localhost:" ++ toString PORT
    ++ "/test-reactive.html\n║   • http://localhost:" ++ toString PORT
    ++ "/test-wasm.html\n║   • http://localhost:" ++ toString PORT
    ++ "/runtime/index.html\n║\n║   Press Ctrl+C to stop\n║\n╚" ++ bar ++ "╝\n"

/-- The farewell printed in the `except KeyboardInterrupt` arm. -/
def farewellMsg : String := "\n\n👋 Server stopped"

/-- `__main__`: construct `TCPServer(("", PORT), WasmHandler)` — a bind
failure closes the socket and re-raises, and the uncaught `OSError`
terminates the process with exit status 1; on success, print the banner
and run `serve_forever` inside `try/except KeyboardInterrupt`, so an
interrupt prints the farewell, the `with` block releases the socket,
and the process exits with status 0.  Exactly one bind, always at
`PORT`: no retry, no fallback port. -/
def serveMain (env : MainEnv) : MainOutcome :=
  match env.bindOutcome PORT with
  | Except.error _ =>
    MainOutcome.exited
      { exitCode := 1, boundPorts := [PORT], socketReleased := true,
        output := [] }
  | Except.ok _ =>
    if env.interruptDuringServe then
      MainOutcome.exited
        { exitCode := 0, boundPorts := [PORT], socketReleased := true,
          output := [bannerText, farewellMsg] }
    else MainOutcome.servingForever

/-! ## Concrete instances used by witnesses and counterexamples -/

/-- A development-typical environment for concrete requests. -/
def mkEnv (rl : String) : Env :=
  { server := "SimpleHTTP/0.6 Python/3.12.3",
    date := "Mon, 01 Sep 2025 12:00:00 GMT",
    addr := "127.0.0.1",
    requestline := rl }

/-- Filesystem used by the traversal counterexample: a served root
`srv` containing `index.html`, and a file `/etc/passwd` outside it. -/
def fsTrav : Fs :=
  [(["srv"], FsEntry.dir),
   (["srv", "index.html"], FsEntry.file [104, 105] "mt5"),
   (["etc", "passwd"], FsEntry.file [114, 111, 111, 116] "mt6")]

/-- Filesystem for the C1 counterexample: a single file literally named
`.wasm` (a dotfile, so `splitext` finds no extension and the library
infers `application/octet-stream`). -/
def fsDot : Fs := [([".wasm"], FsEntry.file [0, 97, 115, 109] "mt1")]

/-- Filesystem for the C3 counterexample: a dotfile `.wasm` under the
served root `site`, so the library's inferred value differs visibly
from the injected one. -/
def fsSiteDot : Fs := [(["site", ".wasm"], FsEntry.file [0] "mt3")]

/-- File used by the C10 concrete requests. -/
def fsM : Fs := [(["m.wasm"], FsEntry.file [0, 1] "mt7")]


/-! ## Helper lemmas -/

theorem contentTypeValues_append (xs ys : List (String × String)) :
    contentTypeValues (xs ++ ys) = contentTypeValues xs ++ contentTypeValues ys := by
  simp [contentTypeValues, List.filter_append]

theorem handleGET_headers (env : Env) (fs : Fs) (root : List String) (p : String) :
    (handleGET env fs root p).1.headers
      = (send_head_core env fs root p).buffered ++ end_headers_extra p := rfl

theorem handleGET_status (env : Env) (fs : Fs) (root : List String) (p : String) :
    (handleGET env fs root p).1.status = (send_head_core env fs root p).status := rfl

theorem handleGET_logs (env : Env) (fs : Fs) (root : List String) (p : String) :
    (handleGET env fs root p).2
      = (send_head_core env fs root p).logs.map (log_line env.addr) := rfl

theorem root_le_resolveKey (root : List String) (p : String) :
    root <+: resolveKey root p :=
  List.prefix_append root (translate_path_words p.data)

theorem lookupFs_restrict (fs : Fs) (root k : List String) (h : root <+: k) :
    lookupFs (restrictFs root fs) k = lookupFs fs k := by
  induction fs with
  | nil => rfl
  | cons e rest ih =>
    by_cases hk : root.isPrefixOf e.fst = true
    · rw [show restrictFs root (e :: rest) = e :: restrictFs root rest from by
        simp [restrictFs, List.filter_cons, hk]]
      unfold lookupFs
      by_cases he : e.fst = k
      · simp [he]
      · simp [he, ih]
    · have hne : e.fst ≠ k := by
        intro hEq
        exact hk <| List.isPrefixOf_iff_prefix.mpr (hEq ▸ h)
      rw [show restrictFs root (e :: rest) = restrictFs root rest from by
        simp [restrictFs, List.filter_cons, hk]]
      rw [ih]
      conv_rhs => unfold lookupFs
      simp [hne]

theorem childNames_restrict (fs : Fs) (root dk : List String) (h : root <+: dk) :
    ((restrictFs root fs).map Prod.fst).filterMap (childNameAt dk)
      = (fs.map Prod.fst).filterMap (childNameAt dk) := by
  induction fs with
  | nil => rfl
  | cons e rest ih =>
    by_cases hk : root.isPrefixOf e.fst = true
    · rw [show restrictFs root (e :: rest) = e :: restrictFs root rest from by
        simp [restrictFs, List.filter_cons, hk]]
      simp only [List.map_cons, List.filterMap_cons]
      rw [ih]
    · have hnone : childNameAt dk e.fst = none := by
        unfold childNameAt
        split
        · next hcond =>
            have hp := List.isPrefixOf_iff_prefix.mpr (h.trans hcond.2)
            exact absurd hp hk
        · rfl
      rw [show restrictFs root (e :: rest) = restrictFs root rest from by
        simp [restrictFs, List.filter_cons, hk]]
      rw [ih]
      conv_rhs => rw [List.map_cons, List.filterMap_cons, hnone]

theorem childEntries_restrict (fs : Fs) (root dk : List String)
    (h : root <+: dk) :
    childEntries (restrictFs root fs) dk = childEntries fs dk := by
  unfold childEntries
  rw [childNames_restrict fs root dk h]
  refine List.map_congr_left (fun n _ => ?_)
  rw [lookupFs_restrict fs root (dk ++ [n]) (h.trans (List.prefix_append dk [n]))]

theorem send_head_core_restrict (env : Env) (fs : Fs) (root : List String)
    (p : String) :
    send_head_core env (restrictFs root fs) root p = send_head_core env fs root p := by
  unfold send_head_core
  rw [lookupFs_restrict fs root (resolveKey root p) (root_le_resolveKey root p),
    lookupFs_restrict fs root (resolveKey root p ++ ["index.html"])
      ((root_le_resolveKey root p).trans (List.prefix_append _ _)),
    lookupFs_restrict fs root (resolveKey root p ++ ["index.htm"])
      ((root_le_resolveKey root p).trans (List.prefix_append _ _)),
    childEntries_restrict fs root (resolveKey root p) (root_le_resolveKey root p)]

theorem core_status_log_count (env : Env) (fs : Fs) (root : List String)
    (p : String) :
    ((send_head_core env fs root p).status = 404
      ∧ (send_head_core env fs root p).logs.length = 2)
    ∨ ((send_head_core env fs root p).status ≠ 404
      ∧ (send_head_core env fs root p).logs.length = 1) := by
  unfold send_head_core
  split
  · split
    · split
      · exact Or.inr (by simp [fileResp])
      · split
        · exact Or.inr (by simp [fileResp])
        · exact Or.inr (by simp [listingResp])
    · exact Or.inr (by simp [redirectResp])
  · split
    · exact Or.inl (by simp [err404Resp])
    · exact Or.inr (by simp [fileResp])
  · exact Or.inl (by simp [err404Resp])

theorem core_logs_ne_nil (env : Env) (fs : Fs) (root : List String)
    (p : String) : (send_head_core env fs root p).logs ≠ [] := by
  rcases core_status_log_count env fs root p with ⟨_, hlen⟩ | ⟨_, hlen⟩ <;>
    · intro hnil
      rw [hnil] at hlen
      simp at hlen

/-! ## Claim C2 -/

/-- C2: every response the modelled server sends — for every request
path, filesystem and status code (success, redirect and 404 alike) —
carries the header `Access-Control-Allow-Origin: *`, because
`WasmHandler.end_headers` appends it unconditionally and every response
branch of the handler terminates its header block through that
override. -/
theorem cors_header_on_every_response (env : Env) (fs : Fs)
    (root : List String) (p : String) :
    ("Access-Control-Allow-Origin", "*") ∈ (handleGET env fs root p).1.headers := by
  rw [handleGET_headers]
  refine List.mem_append_right _ ?_
  unfold end_headers_extra
  cases pyEndsWith p.data ".wasm".data <;> simp

/-! ## Claim C4 -/

/-- C4 counterexample: the request `/../index.html` contains a
parent-directory traversal segment, yet the response status is 200 (not
an HTTP error): `translate_path` collapses and drops `..` components,
so the path resolves to the in-root `index.html`, whose bytes are
served. -/
theorem traversal_not_error_counterexample :
    "/../".data <:+: "/../index.html".data
    ∧ (handleGET (mkEnv "GET /../index.html HTTP/1.1") fsTrav ["srv"]
        "/../index.html").1.status = 200
    ∧ ¬ 400 ≤ (handleGET (mkEnv "GET /../index.html HTTP/1.1") fsTrav ["srv"]
        "/../index.html").1.status
    ∧ (handleGET (mkEnv "GET /../index.html HTTP/1.1") fsTrav ["srv"]
        "/../index.html").1.body = Body.bytes [104, 105] := by decide

/-- C4 amended: traversal segments are neutralized rather than
rejected — `..` components are collapsed by `normpath` and the residue
is dropped by `translate_path` — so the entire response (status,
headers, body, log lines) is computed from the filesystem entries whose
paths lie under the served root alone; no file content outside the root
can ever be returned.  The status, however, need not be an error: a
traversal path may resolve to an existing in-root file and be served
with 200. -/
theorem response_depends_only_on_root_subtree (env : Env) (fs : Fs)
    (root : List String) (p : String) :
    handleGET env (restrictFs root fs) root p = handleGET env fs root p := by
  unfold handleGET assembleResponse
  rw [send_head_core_restrict]

/-! ## Claim C1 -/

/-- C1 counterexample: for the request `/.wasm`, which ends in `.wasm`
and resolves to an existing file, the response does NOT carry
`application/wasm` as its only Content-Type value: `end_headers` merely
appends a second `Content-Type` line after the library's already
buffered `Content-type: application/octet-stream`, so the emitted
header block carries two conflicting Content-Type lines — the claim's
"exactly `application/wasm`, overriding the default inference" fails. -/
theorem wasm_content_type_not_sole_counterexample :
    pyEndsWith "/.wasm".data ".wasm".data = true
    ∧ lookupFs fsDot (resolveKey [] "/.wasm")
        = some (FsEntry.file [0, 97, 115, 109] "mt1")
    ∧ (handleGET (mkEnv "GET /.wasm HTTP/1.1") fsDot [] "/.wasm").1.status = 200
    ∧ contentTypeValues
        (handleGET (mkEnv "GET /.wasm HTTP/1.1") fsDot [] "/.wasm").1.headers
        = ["application/octet-stream", "application/wasm"]
    ∧ ¬ (∀ v ∈ contentTypeValues
          (handleGET (mkEnv "GET /.wasm HTTP/1.1") fsDot [] "/.wasm").1.headers,
          v = "application/wasm") := by decide

/-- C1 amended: for every request whose raw path ends in `.wasm`
(in particular every such request resolving to an existing file), the
LAST Content-Type line of the emitted header block is exactly
`application/wasm` — the injected header is appended after all buffered
lines, so under last-occurrence header semantics the client receives
`application/wasm`; but the base handler's inferred Content-Type line
is not removed, and for unusual names (e.g. a bare `.wasm` dotfile) an
earlier conflicting line remains. -/
theorem wasm_content_type_last_line (env : Env) (fs : Fs)
    (root : List String) (p : String)
    (h : pyEndsWith p.data ".wasm".data = true) :
    (contentTypeValues (handleGET env fs root p).1.headers).getLast?
      = some "application/wasm" := by
  have hh : (handleGET env fs root p).1.headers
      = (send_head_core env fs root p).buffered
        ++ [("Content-Type", "application/wasm"),
            ("Access-Control-Allow-Origin", "*")] := by
    rw [handleGET_headers]
    unfold end_headers_extra
    rw [h]
    simp
  rw [hh, contentTypeValues_append,
    show contentTypeValues
        [("Content-Type", "application/wasm"),
         ("Access-Control-Allow-Origin", "*")] = ["application/wasm"] from rfl]
  exact List.getLast?_concat _

/-- C1 witness: a concrete `.wasm` request hitting an existing file. -/
theorem wasm_content_type_last_line_witness :
    pyEndsWith "/w/app.wasm".data ".wasm".data = true
    ∧ (contentTypeValues (handleGET (mkEnv "GET /w/app.wasm HTTP/1.1")
          [(["w", "app.wasm"], FsEntry.file [1, 2] "mt2")] [] "/w/app.wasm").1.headers).getLast?
        = some "application/wasm" :=
  ⟨by decide, wasm_content_type_last_line _ _ _ _ (by decide)⟩

/-! ## Claim C3 -/

/-- C3 counterexample: for the request `/.wasm` (served from root
`site`), the full emitted header block shows the library's own
content-type line (`Content-type: application/octet-stream`, buffered
by `send_head` at position 2) BEFORE the injected
`Content-Type: application/wasm` (appended by `end_headers` at
position 5): the override runs at header-emission time, after the
library has already set its content-type header, so the injected value
is not "set before the underlying library sets its own content-type
headers", and the first Content-Type value on the wire is the library's
guess, not the injected one. -/
theorem wasm_header_order_counterexample :
    pyEndsWith "/.wasm".data ".wasm".data = true
    ∧ (handleGET (mkEnv "GET /.wasm HTTP/1.1") fsSiteDot ["site"]
        "/.wasm").1.headers
        = [("Server", "SimpleHTTP/0.6 Python/3.12.3"),
           ("Date", "Mon, 01 Sep 2025 12:00:00 GMT"),
           ("Content-type", "application/octet-stream"),
           ("Content-Length", "1"),
           ("Last-Modified", "mt3"),
           ("Content-Type", "application/wasm"),
           ("Access-Control-Allow-Origin", "*")]
    ∧ (contentTypeValues (handleGET (mkEnv "GET /.wasm HTTP/1.1") fsSiteDot
        ["site"] "/.wasm").1.headers).head? = some "application/octet-stream"
    ∧ some "application/octet-stream" ≠ some "application/wasm" := by decide

/-- C3 amended: when a request whose raw path ends in `.wasm` serves an
existing file, the handler's injected `Content-Type: application/wasm`
line is appended at header-emission time AFTER the library's own
buffered `Content-type` line — the library line sits at position 2 of
the emitted block and the injected line at position 5 — so the
injection supplements rather than precedes the library's header; it is
the final Content-Type line of the response. -/
theorem wasm_header_appended_after_library (env : Env) (fs : Fs)
    (root : List String) (p : String) (c : List Nat) (m : String)
    (hw : pyEndsWith p.data ".wasm".data = true)
    (hf : lookupFs fs (resolveKey root p) = some (FsEntry.file c m))
    (ht : hasTrailingSlash p = false) :
    (handleGET env fs root p).1.headers.get? 2
      = some ("Content-type", guess_type (lastComponent (resolveKey root p)))
    ∧ (handleGET env fs root p).1.headers.get? 5
      = some ("Content-Type", "application/wasm")
    ∧ (2 : Nat) < 5 := by
  have hcore : send_head_core env fs root p
      = fileResp env (lastComponent (resolveKey root p)) c m := by
    unfold send_head_core
    rw [hf, ht]
    simp
  refine ⟨?_, ?_, by decide⟩ <;>
    simp [handleGET_headers, hcore, fileResp, end_headers_extra, hw]

/-- C3 witness: a concrete existing `.wasm` file. -/
theorem wasm_header_appended_after_library_witness :
    pyEndsWith "/app.wasm".data ".wasm".data = true
    ∧ lookupFs [(["app.wasm"], FsEntry.file [9] "mt4")] (resolveKey [] "/app.wasm")
        = some (FsEntry.file [9] "mt4")
    ∧ hasTrailingSlash "/app.wasm" = false
    ∧ ((handleGET (mkEnv "GET /app.wasm HTTP/1.1")
          [(["app.wasm"], FsEntry.file [9] "mt4")] [] "/app.wasm").1.headers.get? 2
        = some ("Content-type", guess_type (lastComponent (resolveKey [] "/app.wasm")))
      ∧ (handleGET (mkEnv "GET /app.wasm HTTP/1.1")
          [(["app.wasm"], FsEntry.file [9] "mt4")] [] "/app.wasm").1.headers.get? 5
        = some ("Content-Type", "application/wasm")
      ∧ (2 : Nat) < 5) :=
  ⟨by decide, by decide, by decide,
   wasm_header_appended_after_library (mkEnv "GET /app.wasm HTTP/1.1")
     [(["app.wasm"], FsEntry.file [9] "mt4")] [] "/app.wasm" [9] "mt4"
     (by decide) (by decide) (by decide)⟩

/-! ## Claim C9 -/

/-- C9: the `.wasm` override is decided by the raw request path alone:
whenever the raw path ends in `.wasm` and the resolved path names no
filesystem entry at all, the response is a 404 error and still carries
the injected `Content-Type: application/wasm` header line. -/
theorem raw_wasm_path_injects_header_on_404 (env : Env) (fs : Fs)
    (root : List String) (p : String)
    (hw : pyEndsWith p.data ".wasm".data = true)
    (hnone : lookupFs fs (resolveKey root p) = none) :
    (handleGET env fs root p).1.status = 404
    ∧ ("Content-Type", "application/wasm") ∈ (handleGET env fs root p).1.headers := by
  have hcore : send_head_core env fs root p = err404Resp env := by
    unfold send_head_core
    rw [hnone]
  constructor
  · rw [handleGET_status, hcore]
    rfl
  · rw [handleGET_headers, hcore]
    unfold end_headers_extra
    rw [hw]
    simp

/-- C9 witness: a `.wasm` request with an empty filesystem. -/
theorem raw_wasm_path_injects_header_on_404_witness :
    pyEndsWith "/gone.wasm".data ".wasm".data = true
    ∧ lookupFs [] (resolveKey [] "/gone.wasm") = none
    ∧ ((handleGET (mkEnv "GET /gone.wasm HTTP/1.1") [] [] "/gone.wasm").1.status = 404
      ∧ ("Content-Type", "application/wasm")
          ∈ (handleGET (mkEnv "GET /gone.wasm HTTP/1.1") [] [] "/gone.wasm").1.headers) :=
  ⟨by decide, by decide,
   raw_wasm_path_injects_header_on_404 _ _ _ _ (by decide) (by decide)⟩

/-! ## Claim C10 -/

/-- C10 counterexample: the claim's universal statement — that a raw
request path carrying a trailing query/fragment suffix never ends in
`.wasm` — is false: for the existing file `m.wasm` requested as
`/m.wasm?v=.wasm`, the raw path does end in `.wasm` (the query string
itself ends in `.wasm`), and the override IS applied: the injected
`Content-Type: application/wasm` line appears in the response. -/
theorem query_suffix_wasm_override_applied_counterexample :
    lookupFs fsM (resolveKey [] "/m.wasm?v=.wasm")
        = some (FsEntry.file [0, 1] "mt7")
    ∧ pyEndsWith "/m.wasm?v=.wasm".data ".wasm".data = true
    ∧ ("Content-Type", "application/wasm")
        ∈ (handleGET (mkEnv "GET /m.wasm?v=.wasm HTTP/1.1") fsM []
            "/m.wasm?v=.wasm").1.headers := by decide

/-- Decomposition of a prefix of an appended list. -/
theorem prefix_append_cases {α : Type} (v a b : List α) (h : v <+: a ++ b) :
    v <+: a ∨ ∃ v2, v = a ++ v2 ∧ v2 <+: b := by
  induction a generalizing v with
  | nil => exact Or.inr ⟨v, rfl, h⟩
  | cons x a ih =>
    cases v with
    | nil => exact Or.inl List.nil_prefix
    | cons y v =>
      rw [List.cons_append] at h
      obtain ⟨rfl, h2⟩ := List.cons_prefix_cons.mp h
      rcases ih v h2 with h3 | ⟨v2, rfl, h4⟩
      · exact Or.inl (List.cons_prefix_cons.mpr ⟨rfl, h3⟩)
      · exact Or.inr ⟨v2, rfl, h4⟩

/-- A word containing no separator cannot be a suffix of
`b ++ sep :: q` unless it is a suffix of `q` alone. -/
theorem not_suffix_of_sep_append (w : List Char) (sep : Char) (hsep : sep ∉ w)
    (b q : List Char) (hq : ¬ w <:+ q) : ¬ w <:+ b ++ sep :: q := by
  intro hsuf
  have hrev : w.reverse <+: q.reverse ++ sep :: b.reverse := by
    have h1 := List.reverse_prefix.mpr hsuf
    rwa [List.reverse_append, List.reverse_cons, List.append_assoc,
      List.singleton_append] at h1
  rcases prefix_append_cases _ _ _ hrev with h1 | ⟨v2, hv2, h2⟩
  · exact hq <| List.reverse_prefix.mp h1
  · cases v2 with
    | nil =>
      apply hq
      have hwq : w = q := by
        apply List.reverse_injective
        rw [hv2, List.append_nil]
      rw [hwq]
    | cons z v3 =>
      have hzs := (List.cons_prefix_cons.mp h2).1
      apply hsep
      have hz : sep ∈ w.reverse := by
        rw [hv2, ← hzs]
        exact List.mem_append_right _ (List.mem_cons_self _ _)
      exact List.mem_reverse.mp hz

/-- C10 amended: for every request whose raw path is an arbitrary base
followed by a `?` (query) or `#` (fragment) separator and a suffix that
does not itself end in `.wasm` — e.g. `/m.wasm?v=1` — the raw path does
not end in `.wasm`, so the `end_headers` override is NOT applied: the
lines the override appends reduce to the CORS line alone, and the
response's header block is exactly the library's buffered headers
followed by that CORS line, with no line injected.  (The library's own
inferred `Content-type: application/wasm` line for an existing `.wasm`
file still appears among the buffered headers — only the injection is
suppressed.)  The original claim's unconditional version fails only
when the query/fragment suffix itself ends in `.wasm`. -/
theorem query_fragment_suffix_blocks_override (env : Env) (fs : Fs)
    (root : List String) (base q : String) (sep : Char)
    (hsep : sep = '?' ∨ sep = '#')
    (hq : ¬ (".wasm".data <:+ q.data)) :
    pyEndsWith (⟨base.data ++ sep :: q.data⟩ : String).data ".wasm".data = false
    ∧ end_headers_extra ⟨base.data ++ sep :: q.data⟩
        = [("Access-Control-Allow-Origin", "*")]
    ∧ (handleGET env fs root ⟨base.data ++ sep :: q.data⟩).1.headers
        = (send_head_core env fs root ⟨base.data ++ sep :: q.data⟩).buffered
          ++ [("Access-Control-Allow-Origin", "*")] := by
  have hfalse : pyEndsWith (⟨base.data ++ sep :: q.data⟩ : String).data
      ".wasm".data = false := by
    unfold pyEndsWith
    rw [show (⟨base.data ++ sep :: q.data⟩ : String).data
        = base.data ++ sep :: q.data from rfl]
    rw [Bool.eq_false_iff]
    intro htrue
    have hsuffix := List.isSuffixOf_iff_suffix.mp htrue
    have hsepnot : sep ∉ ".wasm".data := by
      rcases hsep with rfl | rfl <;> decide
    exact not_suffix_of_sep_append _ _ hsepnot _ _ hq hsuffix
  have hextra : end_headers_extra ⟨base.data ++ sep :: q.data⟩
      = [("Access-Control-Allow-Origin", "*")] := by
    unfold end_headers_extra
    rw [hfalse]
    simp
  refine ⟨hfalse, hextra, ?_⟩
  rw [handleGET_headers, hextra]

/-- C10 witness: the concrete request `/m.wasm?v=1` for the existing
file `m.wasm`: the override appends only the CORS line. -/
theorem query_fragment_suffix_blocks_override_witness :
    ('?' = '?' ∨ '?' = '#')
    ∧ ¬ (".wasm".data <:+ "v=1".data)
    ∧ lookupFs fsM (resolveKey [] (⟨"/m.wasm".data ++ '?' :: "v=1".data⟩ : String))
        = some (FsEntry.file [0, 1] "mt7")
    ∧ end_headers_extra (⟨"/m.wasm".data ++ '?' :: "v=1".data⟩ : String)
        = [("Access-Control-Allow-Origin", "*")] :=
  ⟨Or.inl rfl, by decide, by decide,
   (query_fragment_suffix_blocks_override (mkEnv "GET /m.wasm?v=1 HTTP/1.1")
     fsM [] "/m.wasm" "v=1" '?' (Or.inl rfl) (by decide)).2.1⟩

/-! ## Claim C8 -/

/-- C8 counterexample: a 404 response produces TWO log lines per
request, not one: `send_error` first logs its diagnostic through
`log_error` (which delegates to the overridden `log_message`) and then
`send_response` logs the request line — both with the fixed marker. -/
theorem error_response_logs_two_lines_counterexample :
    (handleGET (mkEnv "GET /missing HTTP/1.1") [] [] "/missing").2
      = ["🌐 127.0.0.1 - code 404, message File not found",
         "🌐 127.0.0.1 - \"GET /missing HTTP/1.1\" 404 -"]
    ∧ (handleGET (mkEnv "GET /missing HTTP/1.1") [] [] "/missing").2.length ≠ 1 := by
  decide

/-- C8 amended: every log line written has the fixed form
`🌐 <client-address> - <message>`; a request answered on the success or
redirect path produces exactly one such line, while a request answered
through `send_error` (status 404) produces exactly two (the error
diagnostic and the request summary), all through the same overridden
`log_message`. -/
theorem log_line_shape_and_count (env : Env) (fs : Fs)
    (root : List String) (p : String) :
    (∀ l ∈ (handleGET env fs root p).2,
      ∃ msg, l = "🌐 " ++ env.addr ++ " - " ++ msg)
    ∧ ((handleGET env fs root p).1.status = 404
        → (handleGET env fs root p).2.length = 2)
    ∧ ((handleGET env fs root p).1.status ≠ 404
        → (handleGET env fs root p).2.length = 1) := by
  refine ⟨?_, ?_, ?_⟩
  · intro l hl
    rw [handleGET_logs] at hl
    obtain ⟨m, _, rfl⟩ := List.mem_map.mp hl
    exact ⟨m, rfl⟩
  · intro h404
    rw [handleGET_logs, List.length_map]
    rw [handleGET_status] at h404
    rcases core_status_log_count env fs root p with ⟨_, hlen⟩ | ⟨hne, _⟩
    · exact hlen
    · exact absurd h404 hne
  · intro hne404
    rw [handleGET_logs, List.length_map]
    rw [handleGET_status] at hne404
    rcases core_status_log_count env fs root p with ⟨h404, _⟩ | ⟨_, hlen⟩
    · exact absurd h404 hne404
    · exact hlen

/-- C8 witness: a concrete successful request logs exactly one line
with the marker form. -/
theorem log_line_shape_and_count_witness :
    (handleGET (mkEnv "GET / HTTP/1.1")
        [([], FsEntry.dir), (["index.html"], FsEntry.file [104] "mt8")] []
        "/").1.status ≠ 404
    ∧ (handleGET (mkEnv "GET / HTTP/1.1")
        [([], FsEntry.dir), (["index.html"], FsEntry.file [104] "mt8")] []
        "/").2.length = 1 :=
  ⟨by decide,
   (log_line_shape_and_count (mkEnv "GET / HTTP/1.1")
     [([], FsEntry.dir), (["index.html"], FsEntry.file [104] "mt8")] []
     "/").2.2 (by decide)⟩

/-! ## Claim C6 -/

/-- C6 counterexample: with stdout unwritable, the request is NOT still
handled: no completed response exists — the `print` exception escapes
`log_message`, aborting the exchange before the headers are flushed. -/
theorem log_failure_aborts_request_counterexample :
    ¬ ∃ (r : HttpResponse) (printed : List String),
        processOneConnection false (mkEnv "GET /index.html HTTP/1.1")
          [(["index.html"], FsEntry.file [104] "mt9")] [] "/index.html"
          = ReqOutcome.completed r printed := by
  rintro ⟨r, printed, h⟩
  rw [show processOneConnection false (mkEnv "GET /index.html HTTP/1.1")
        [(["index.html"], FsEntry.file [104] "mt9")] [] "/index.html"
      = ReqOutcome.handledError "print raised: I/O error on stdout" from rfl] at h
  exact ReqOutcome.noConfusion h

/-- `mapM` over the failing logger fails at the first line. -/
theorem mapM_log_message_fail (addr l : String) (ls : List String) :
    (l :: ls).mapM (WasmHandler.log_message false addr)
      = Except.error "print raised: I/O error on stdout" := rfl

/-- C6 amended: a logging write failure DOES propagate out of
`log_message` (the override installs no exception handler), aborting
that request's exchange; the exception is caught one layer up by the
`socketserver` dispatch (`handle_error`), so the server itself survives
and continues to process subsequent connections unchanged. -/
theorem log_failure_propagates_server_survives (env : Env) (fs : Fs)
    (root : List String) (p : String) (rest : List (Env × String)) :
    processOneConnection false env fs root p
      = ReqOutcome.handledError "print raised: I/O error on stdout"
    ∧ serve_forever_loop false fs root ((env, p) :: rest)
      = ReqOutcome.handledError "print raised: I/O error on stdout"
        :: serve_forever_loop false fs root rest := by
  have h1 : processOneConnection false env fs root p
      = ReqOutcome.handledError "print raised: I/O error on stdout" := by
    unfold processOneConnection
    rcases hl : (send_head_core env fs root p).logs with _ | ⟨l, ls⟩
    · exact absurd hl (core_logs_ne_nil env fs root p)
    · rw [mapM_log_message_fail]
  refine ⟨h1, ?_⟩
  rw [show serve_forever_loop false fs root ((env, p) :: rest)
      = processOneConnection false env fs root p
        :: serve_forever_loop false fs root rest from rfl, h1]

/-! ## Claim C5 -/

/-- C5: if binding the fixed port fails at startup (`EADDRINUSE`,
`EACCES`, …), the process terminates with a non-zero exit status having
attempted exactly one bind, at port 8000 — no retry, no fallback port,
nothing served and no banner printed; the `OSError` raised inside
`TCPServer.__init__` (which closes the socket and re-raises) is
uncaught in `__main__`. -/
theorem bind_failure_exits_nonzero_no_fallback (env : MainEnv) (e : String)
    (h : env.bindOutcome PORT = Except.error e) :
    ∃ r, serveMain env = MainOutcome.exited r
      ∧ r.exitCode ≠ 0
      ∧ r.boundPorts = [8000]
      ∧ r.socketReleased = true
      ∧ r.output = [] := by
  refine ⟨{ exitCode := 1, boundPorts := [PORT], socketReleased := true,
            output := [] }, ?_, by decide, rfl, rfl, rfl⟩
  unfold serveMain
  rw [h]

/-- C5 witness: a concrete environment whose port 8000 is in use. -/
theorem bind_failure_exits_nonzero_no_fallback_witness :
    ({ bindOutcome := fun _ => Except.error "EADDRINUSE: address already in use",
       interruptDuringServe := false } : MainEnv).bindOutcome PORT
      = Except.error "EADDRINUSE: address already in use"
    ∧ ∃ r, serveMain
        { bindOutcome := fun _ => Except.error "EADDRINUSE: address already in use",
          interruptDuringServe := false } = MainOutcome.exited r
      ∧ r.exitCode ≠ 0
      ∧ r.boundPorts = [8000]
      ∧ r.socketReleased = true
      ∧ r.output = [] :=
  ⟨rfl,
   bind_failure_exits_nonzero_no_fallback
     { bindOutcome := fun _ => Except.error "EADDRINUSE: address already in use",
       interruptDuringServe := false }
     "EADDRINUSE: address already in use" rfl⟩

/-! ## Claim C7 -/

/-- C7: a `KeyboardInterrupt` delivered while `serve_forever` listens is
caught by the `except` arm, which prints the fixed farewell message;
the `with` block then releases the listening socket and the process
exits with status 0.  Conversely, every non-zero exit of the model
comes from a startup bind failure. -/
theorem interrupt_shutdown_clean_exit (env : MainEnv)
    (hb : env.bindOutcome PORT = Except.ok ())
    (hi : env.interruptDuringServe = true) :
    (∃ r, serveMain env = MainOutcome.exited r
      ∧ r.exitCode = 0
      ∧ r.socketReleased = true
      ∧ r.output.getLast? = some farewellMsg)
    ∧ ∀ (env2 : MainEnv) (r2 : ProcResult),
        serveMain env2 = MainOutcome.exited r2 → r2.exitCode ≠ 0 →
          ∃ e2, env2.bindOutcome PORT = Except.error e2 := by
  constructor
  · refine ⟨{ exitCode := 0, boundPorts := [PORT], socketReleased := true,
              output := [bannerText, farewellMsg] }, ?_, rfl, rfl, rfl⟩
    unfold serveMain
    rw [hb, hi]
    simp
  · intro env2 r2 hserve hne
    unfold serveMain at hserve
    cases hb2 : env2.bindOutcome PORT with
    | error e2 =>
      first
      | exact ⟨e2, hb2⟩
      | exact ⟨e2, rfl⟩
    | ok u =>
      rw [hb2] at hserve
      cases hi2 : env2.interruptDuringServe with
      | false =>
        rw [hi2] at hserve
        simp at hserve
      | true =>
        rw [hi2] at hserve
        simp at hserve
        subst hserve
        exact (hne rfl).elim

/-- C7 witness: a concrete run that binds and is interrupted. -/
theorem interrupt_shutdown_clean_exit_witness :
    ({ bindOutcome := fun _ => Except.ok (),
       interruptDuringServe := true } : MainEnv).bindOutcome PORT = Except.ok ()
    ∧ ∃ r, serveMain
        { bindOutcome := fun _ => Except.ok (),
          interruptDuringServe := true } = MainOutcome.exited r
      ∧ r.exitCode = 0
      ∧ r.socketReleased = true
      ∧ r.output.getLast? = some farewellMsg :=
  ⟨rfl,
   (interrupt_shutdown_clean_exit
     { bindOutcome := fun _ => Except.ok (), interruptDuringServe := true }
     rfl rfl).1⟩
